import Mathlib

/-!
Verification of the smartprompt repository (tool dispatch loop, tool
registry, storage providers, prompt loader and model orchestrator)
against its natural-language specification.

The Python source is shallowly embedded: pure data classes become Lean
structures, Python dictionaries become association lists, raised
exceptions become `Except` errors, and the mutable process-wide tool
registry is passed explicitly in state-passing style (each registry
method returns the registry that results from the call; the read-only
methods of the source return it unchanged).  Bytes read from storage
are modelled by their decoded UTF-8 text, which is the only way the
loader ever consumes them.
-/

namespace SmartPrompt

/-! ## Basic characters used by the placeholder scanner and JSON codec -/

/-- The character `{` (written via its code point to keep string literals
brace-free). -/
def lbrace : Char := Char.ofNat 123

/-- The character `}`. -/
def rbrace : Char := Char.ofNat 125

/-! ## tool_runner.py: data model -/

/-- Decoded JSON argument payload of one tool call
(`Dict[str, Any]` in the source).  The embedding restricts payloads to
flat objects of string fields, the shape used by the repository's
settings artifacts and its tool-call examples. -/
abbrev Args := List (String × String)

/-- `ToolCallRequest` from tool_runner.py: a request to call a specific
tool with arguments. -/
structure ToolCallRequest where
  id : String
  function_name : String
  arguments : Args
deriving DecidableEq

/-- `ToolCallResponse` from tool_runner.py.  `result` holds the string
form of the tool's value on success and `str(e)` of the caught
exception on failure; `status` is the literal string used by the
source, `"success"` or `"error"`. -/
structure ToolCallResponse where
  tool_call_id : String
  function_name : String
  arguments : Args
  result : String
  status : String
deriving DecidableEq

/-! ## tool_registry.py -/

/-- A registered tool (a pydantic `BaseModel` subclass in the source).
`run` models `tool_class(**arguments)` followed by `.execute()`:
pydantic validation errors and exceptions raised inside `execute`
both surface as `Except.error` carrying `str(e)`. -/
structure Tool where
  run : Args → Except String String

/-- `ToolRegistry` from tool_registry.py: the name-keyed dictionary
`self._tools`, kept in insertion order with unique keys (dictionary
semantics). -/
structure ToolRegistry where
  tools : List (String × Tool)

/-- `ToolRegistry.get_tool_names`: `list(self._tools.keys())`. -/
def ToolRegistry.get_tool_names (reg : ToolRegistry) : List String :=
  reg.tools.map Prod.fst

/-- Python `str` of a list of strings, as it appears inside the
unknown-tool diagnostic: `['a', 'b']` (quotes written via `\x27`). -/
def pyStrList (names : List String) : String :=
  "[" ++ String.intercalate ", " (names.map (fun s => "\x27" ++ s ++ "\x27")) ++ "]"

/-- The message of the `ValueError` raised by `ToolRegistry.get_tool`
for an unknown name:
`f"Tool '{name}' not found. Available tools: {list(self._tools.keys())}"`. -/
def toolNotFoundMessage (name : String) (known : List String) : String :=
  "Tool \x27" ++ name ++ "\x27 not found. Available tools: " ++ pyStrList known

/-- `ToolRegistry.register_tool`: `self._tools[tool_class.__name__] = tool_class`
(dictionary insert: an existing key is overwritten in place, a new key
is appended). -/
def ToolRegistry.register_tool_entry :
    List (String × Tool) → String → Tool → List (String × Tool)
  | [], name, t => [(name, t)]
  | (k, v) :: rest, name, t =>
    if k = name then (k, t) :: rest
    else (k, v) :: ToolRegistry.register_tool_entry rest name t

/-- `ToolRegistry.register_tool` at the registry level. -/
def ToolRegistry.register_tool (reg : ToolRegistry) (name : String) (t : Tool) :
    ToolRegistry :=
  ⟨ToolRegistry.register_tool_entry reg.tools name t⟩

/-- The value computed by `ToolRegistry.get_tool`: raises `ValueError`
(here `Except.error` with the message) when `name not in self._tools`,
otherwise returns the entry. -/
def ToolRegistry.get_tool_res (reg : ToolRegistry) (name : String) :
    Except String Tool :=
  match reg.tools.lookup name with
  | none => Except.error (toolNotFoundMessage name reg.get_tool_names)
  | some t => Except.ok t

/-- `ToolRegistry.get_tool` in state-passing form: the method only
reads `self._tools`, so the returned registry state is the input
state. -/
def ToolRegistry.get_tool (reg : ToolRegistry) (name : String) :
    Except String Tool × ToolRegistry :=
  (reg.get_tool_res name, reg)

/-! ## tool_runner.py: the dispatch loop -/

/-- `ToolRunner._dispatch_tool_call`: resolve the name, construct and
execute the tool, catch every exception and turn it into a
`status: 'error'` response carrying `str(e)`.  The registry is only
read (see `ToolRegistry.get_tool`), so the out-state is the in-state. -/
def ToolRunner.dispatch_tool_call (reg : ToolRegistry) (req : ToolCallRequest) :
    ToolCallResponse × ToolRegistry :=
  match (reg.get_tool req.function_name).1 with
  | Except.error e =>
    (⟨req.id, req.function_name, req.arguments, e, "error"⟩,
      (reg.get_tool req.function_name).2)
  | Except.ok tool =>
    match tool.run req.arguments with
    | Except.ok r =>
      (⟨req.id, req.function_name, req.arguments, r, "success"⟩,
        (reg.get_tool req.function_name).2)
    | Except.error e =>
      (⟨req.id, req.function_name, req.arguments, e, "error"⟩,
        (reg.get_tool req.function_name).2)

/-- The `for tool_call in tool_call_requests` loop of
`ToolRunner.run_tools`, threading the registry state. -/
def ToolRunner.run_tools_go :
    ToolRegistry → List ToolCallRequest → List ToolCallResponse × ToolRegistry
  | reg, [] => ([], reg)
  | reg, req :: rest =>
    let pr := ToolRunner.dispatch_tool_call reg req
    let tail := ToolRunner.run_tools_go pr.2 rest
    (pr.1 :: tail.1, tail.2)

/-- `ToolRunner.run_tools`: the empty batch short-circuits to `[]`,
otherwise each request is dispatched in order and its response
appended.  The function is total: no exception escapes. -/
def ToolRunner.run_tools (reg : ToolRegistry)
    (tool_call_requests : List ToolCallRequest) :
    List ToolCallResponse × ToolRegistry :=
  if tool_call_requests.isEmpty then ([], reg)
  else ToolRunner.run_tools_go reg tool_call_requests

/-! ## prompt_loader.py: placeholder substitution

`PromptLoader._fill_placeholders` runs
`re.findall(r"{(.*?)}", text)` once over the original text and then,
for each found name that is a key of the placeholder dict, performs
`text.replace("{" + name + "}", value)`.  Both primitives are embedded
at the character level below. -/

/-- The lazy closing step of the regex `{(.*?)}` at one opening brace:
scan for the nearest `}` with no newline before it (`.` does not match
a newline).  Returns the captured name and the characters after the
closing brace. -/
def takeToBrace : List Char → Option (List Char × List Char)
  | [] => none
  | c :: cs =>
    if c = rbrace then some ([], cs)
    else if c = '\n' then none
    else
      match takeToBrace cs with
      | some (nm, rest) => some (c :: nm, rest)
      | none => none

/-- `re.findall(r"{(.*?)}", text)`: scan left to right; at each `{` try
the lazy match; on success capture the name and continue after the
closing brace, on failure continue with the next character. -/
def findallChars : List Char → List (List Char)
  | [] => []
  | c :: cs =>
    if c = lbrace then
      match _h : takeToBrace cs with
      | some (nm, rest) => nm :: findallChars rest
      | none => findallChars cs
    else findallChars cs
termination_by cs => cs.length
decreasing_by
  · have key : ∀ l nm rest : List Char,
        takeToBrace l = some (nm, rest) → rest.length < l.length := by
      intro l
      induction l with
      | nil => intro nm rest hsome; simp [takeToBrace] at hsome
      | cons d ds ih =>
        intro nm rest hsome
        simp only [takeToBrace] at hsome
        split at hsome
        · rw [Option.some_inj] at hsome
          cases hsome
          simp [Nat.lt_succ_self]
        · split at hsome
          · exact absurd hsome (by simp)
          · rcases h3 : takeToBrace ds with _ | ⟨nm1, rest1⟩
            · rw [h3] at hsome; exact absurd hsome (by simp)
            · rw [h3] at hsome
              rw [Option.some_inj] at hsome
              cases hsome
              exact Nat.lt_succ_of_lt (ih _ _ h3)
    simpa using Nat.lt_succ_of_lt (key cs nm rest _h)
  · simp [Nat.lt_succ_self]
  · simp [Nat.lt_succ_self]

/-- Python `str.replace(old, new)` for a non-empty `old`: replace every
non-overlapping occurrence, scanning left to right and continuing
after each substituted replacement.  (The source only ever calls it
with the two-character-or-longer pattern `"{" + name + "}"`, so the
empty-pattern case of Python's `replace` is irrelevant; the embedding
leaves the text unchanged there.) -/
def replaceAllChars (pat rep : List Char) : List Char → List Char
  | [] => []
  | c :: cs =>
    if pat ≠ [] ∧ pat.isPrefixOf (c :: cs) then
      rep ++ replaceAllChars pat rep ((c :: cs).drop pat.length)
    else
      c :: replaceAllChars pat rep cs
termination_by s => s.length
decreasing_by
  · rename_i hp
    have hpos : 0 < pat.length := List.length_pos.mpr hp.1
    simp only [List.length_drop, List.length_cons]
    omega
  · simp [Nat.lt_succ_self]

/-- `str.replace` at the `String` level. -/
def pyReplace (s old new : String) : String :=
  String.mk (replaceAllChars old.toList new.toList s.toList)

/-- `re.findall(r"{(.*?)}", text)` at the `String` level. -/
def findPlaceholders (text : String) : List String :=
  (findallChars text.toList).map String.mk

/-- The body of the `for placeholder in re.findall(...)` loop:
`if placeholder in placeholders: text = text.replace("{" + placeholder + "}", placeholders[placeholder])`. -/
def fillStep (placeholders : List (String × String)) (t : String)
    (p : String) : String :=
  match placeholders.lookup p with
  | some v => pyReplace t (String.mk (lbrace :: p.toList ++ [rbrace])) v
  | none => t

/-- `PromptLoader._fill_placeholders` applied to one text field: the
names are found once on the original text, then each found name that
is a key triggers a global replace on the current text. -/
def fillText (text : String) (placeholders : List (String × String)) :
    String :=
  (findPlaceholders text).foldl (fillStep placeholders) text

/-- `_fill_placeholders`: the system text and the user text are
processed independently, system first. -/
def PromptLoader.fill_placeholders (system_prompt user_prompt : String)
    (placeholders : List (String × String)) : String × String :=
  (fillText system_prompt placeholders, fillText user_prompt placeholders)

/-- The token `{name}` as a character list (spec-side description of
input shapes for the substitution theorem). -/
def tokenChars (nm : String) : List Char :=
  lbrace :: nm.toList ++ [rbrace]

/-- Join text segments with a separator (spec-side description of a
text containing the separator exactly between consecutive segments). -/
def joinSep (sep : List Char) : List (List Char) → List Char
  | [] => []
  | [p] => p
  | p :: ps => p ++ sep ++ joinSep sep ps

/-- `joinSep` at the `String` level. -/
def joinWith (sep : String) (parts : List String) : String :=
  String.mk (joinSep sep.toList (parts.map String.toList))

/-! ## Python exception classes raised by the prompt loader -/

/-- The exception classes that can escape `PromptLoader.__init__`:
`ValueError` raised explicitly by the loader, `json.JSONDecodeError`
from `json.loads` (a subclass of `ValueError`), and `TypeError` from
`PromptSettings(**kwargs)` with wrong keys. -/
inductive PyError where
  | valueError (msg : String)
  | jsonDecodeError (msg : String)
  | typeError (msg : String)
deriving DecidableEq

/-- Membership in the `ValueError` class hierarchy
(`json.JSONDecodeError` subclasses `ValueError`). -/
def PyError.isValueErrorClass : PyError → Bool
  | PyError.valueError _ => true
  | PyError.jsonDecodeError _ => true
  | PyError.typeError _ => false

/-! ## prompt.py -/

/-- `PromptSettings` from prompt.py. -/
structure PromptSettings where
  provider : String
  model : String
deriving DecidableEq

/-- `Prompt` from prompt.py.  `response_schema` and `tools` hold
caller-supplied Python objects (a type descriptor and a list of tool
schema declarations); they are opaque to this code, so their element
types are parameters. -/
structure Prompt (σ τ : Type) where
  system_prompt : String
  user_prompt : String
  settings : PromptSettings
  response_schema : Option σ
  tools : Option (List τ)
deriving DecidableEq

/-- `Prompt.from_definition`: builds the dataclass from its parts. -/
def Prompt.from_definition {σ τ : Type} (system_prompt user_prompt : String)
    (prompt_settings : PromptSettings) (response_schema : Option σ)
    (tools : Option (List τ)) : Prompt σ τ :=
  ⟨system_prompt, user_prompt, prompt_settings, response_schema, tools⟩

/-! ## JSON encoding of settings (`json.dumps(self._prompt_settings.__dict__)`) -/

/-- Lowercase hexadecimal digit, as produced by Python's json escape
sequences. -/
def hexDigit (n : Nat) : Char :=
  if n < 10 then Char.ofNat (48 + n) else Char.ofNat (87 + n)

/-- A `\uXXXX` escape for a 16-bit code unit. -/
def uEscape (n : Nat) : List Char :=
  ['\\', 'u', hexDigit (n / 4096 % 16), hexDigit (n / 256 % 16),
    hexDigit (n / 16 % 16), hexDigit (n % 16)]

/-- Escaping of one character inside a JSON string, following
`json.dumps` with its default `ensure_ascii=True`: the two mandatory
escapes, the short control escapes, `\u00XX` for other control
characters, ASCII verbatim, and `\uXXXX` (with surrogate pairs beyond
the basic plane) for everything else. -/
def jsonEscapeChar (c : Char) : List Char :=
  if c = '"' then ['\\', '"']
  else if c = '\\' then ['\\', '\\']
  else if c = '\n' then ['\\', 'n']
  else if c = '\r' then ['\\', 'r']
  else if c = '\t' then ['\\', 't']
  else if c.toNat = 8 then ['\\', 'b']
  else if c.toNat = 12 then ['\\', 'f']
  else if c.toNat < 32 then uEscape c.toNat
  else if c.toNat < 127 then [c]
  else if c.toNat < 65536 then uEscape c.toNat
  else
    uEscape (55296 + (c.toNat - 65536) / 1024) ++
      uEscape (56320 + (c.toNat - 65536) % 1024)

/-- A JSON string literal for `s`. -/
def jsonQuote (s : String) : String :=
  String.mk ('"' :: (s.toList.map jsonEscapeChar).flatten ++ ['"'])

/-- `json.dumps(self._prompt_settings.__dict__)`: the dataclass dict
iterates in field order (`provider`, then `model`), and the default
separators put `", "` between members and `": "` after each key. -/
def dumpsSettings (st : PromptSettings) : String :=
  String.mk [lbrace] ++ "\"provider\": " ++ jsonQuote st.provider ++
    ", \"model\": " ++ jsonQuote st.model ++ String.mk [rbrace]

/-! ## JSON decoding (`json.loads`), restricted to the flat objects of
string fields used by the repository's artifacts and examples -/

/-- Hexadecimal digit value. -/
def hexVal (c : Char) : Option Nat :=
  if 48 ≤ c.toNat ∧ c.toNat ≤ 57 then some (c.toNat - 48)
  else if 97 ≤ c.toNat ∧ c.toNat ≤ 102 then some (c.toNat - 87)
  else if 65 ≤ c.toNat ∧ c.toNat ≤ 70 then some (c.toNat - 55)
  else none

/-- JSON whitespace. -/
def isJsonWs (c : Char) : Bool :=
  c = ' ' || c = '\t' || c = '\n' || c = '\r'

/-- Skip leading JSON whitespace. -/
def skipWs : List Char → List Char
  | [] => []
  | c :: cs => if isJsonWs c then skipWs cs else c :: cs

/-- Body of a JSON string after its opening quote: returns the decoded
characters and the input after the closing quote.  Escapes follow
`json.loads`; a lone surrogate (which Python would keep as an
unpaired code unit) is rejected, since it is not a Unicode scalar
value.  The fuel argument only forces termination; one unit is spent
per consumed character, so `length + 1` always suffices. -/
def parseJStringAux : Nat → List Char → Except String (List Char × List Char)
  | 0, _ => Except.error "string parse fuel exhausted"
  | Nat.succ fuel, cs =>
    match cs with
    | [] => Except.error "Unterminated string"
    | c :: cs1 =>
      if c = '"' then Except.ok ([], cs1)
      else if c = '\\' then
        match cs1 with
        | [] => Except.error "Unterminated string"
        | e :: cs2 =>
          if e = '"' then
            (parseJStringAux fuel cs2).map (fun pr => ('"' :: pr.1, pr.2))
          else if e = '\\' then
            (parseJStringAux fuel cs2).map (fun pr => ('\\' :: pr.1, pr.2))
          else if e = '/' then
            (parseJStringAux fuel cs2).map (fun pr => ('/' :: pr.1, pr.2))
          else if e = 'b' then
            (parseJStringAux fuel cs2).map (fun pr => (Char.ofNat 8 :: pr.1, pr.2))
          else if e = 'f' then
            (parseJStringAux fuel cs2).map (fun pr => (Char.ofNat 12 :: pr.1, pr.2))
          else if e = 'n' then
            (parseJStringAux fuel cs2).map (fun pr => ('\n' :: pr.1, pr.2))
          else if e = 'r' then
            (parseJStringAux fuel cs2).map (fun pr => ('\r' :: pr.1, pr.2))
          else if e = 't' then
            (parseJStringAux fuel cs2).map (fun pr => ('\t' :: pr.1, pr.2))
          else if e = 'u' then
            match cs2 with
            | h1 :: h2 :: h3 :: h4 :: cs3 =>
              match hexVal h1, hexVal h2, hexVal h3, hexVal h4 with
              | some a, some b, some c2, some d =>
                let n := ((a * 16 + b) * 16 + c2) * 16 + d
                if 55296 ≤ n ∧ n ≤ 56319 then
                  match cs3 with
                  | b1 :: b2 :: g1 :: g2 :: g3 :: g4 :: cs4 =>
                    if b1 = '\\' ∧ b2 = 'u' then
                      match hexVal g1, hexVal g2, hexVal g3, hexVal g4 with
                      | some w, some x, some y, some z =>
                        let m := ((w * 16 + x) * 16 + y) * 16 + z
                        if 56320 ≤ m ∧ m ≤ 57343 then
                          (parseJStringAux fuel cs4).map (fun pr =>
                            (Char.ofNat
                                (65536 + (n - 55296) * 1024 + (m - 56320)) ::
                              pr.1, pr.2))
                        else Except.error "unpaired surrogate"
                      | _, _, _, _ => Except.error "Invalid \\uXXXX escape"
                    else Except.error "unpaired surrogate"
                  | _ => Except.error "unpaired surrogate"
                else if 56320 ≤ n ∧ n ≤ 57343 then
                  Except.error "unpaired surrogate"
                else
                  (parseJStringAux fuel cs3).map (fun pr =>
                    (Char.ofNat n :: pr.1, pr.2))
              | _, _, _, _ => Except.error "Invalid \\uXXXX escape"
            | _ => Except.error "Invalid \\uXXXX escape"
          else Except.error "Invalid escape"
      else if c.toNat < 32 then Except.error "Invalid control character"
      else (parseJStringAux fuel cs1).map (fun pr => (c :: pr.1, pr.2))

/-- A JSON string body with always-sufficient fuel. -/
def parseJString (cs : List Char) : Except String (List Char × List Char) :=
  parseJStringAux (cs.length + 1) cs

/-- The members of a JSON object, starting just after `{` or a `,`:
`"key": "value"` pairs separated by commas and closed by `}`.  Values
other than strings are rejected (embedding restriction, see `Args`).
Fuel: one unit per member, so `length + 1` always suffices. -/
def parseMembersAux :
    Nat → List Char → Except String (List (String × String) × List Char)
  | 0, _ => Except.error "object parse fuel exhausted"
  | Nat.succ fuel, cs =>
    match skipWs cs with
    | c :: rest =>
      if c = '"' then
        match parseJString rest with
        | Except.error e => Except.error e
        | Except.ok (keyChars, rest1) =>
          match skipWs rest1 with
          | d :: rest3 =>
            if d = ':' then
              match skipWs rest3 with
              | q :: rest5 =>
                if q = '"' then
                  match parseJString rest5 with
                  | Except.error e => Except.error e
                  | Except.ok (valChars, rest6) =>
                    match skipWs rest6 with
                    | s :: rest8 =>
                      if s = ',' then
                        (parseMembersAux fuel rest8).map (fun pr =>
                          ((String.mk keyChars, String.mk valChars) :: pr.1,
                            pr.2))
                      else if s = rbrace then
                        Except.ok
                          ([(String.mk keyChars, String.mk valChars)], rest8)
                      else Except.error "Expecting delimiter"
                    | [] => Except.error "Expecting delimiter"
                else
                  Except.error "Expecting string value (embedding restriction)"
              | [] => Except.error "Expecting value"
            else Except.error "Expecting colon delimiter"
          | [] => Except.error "Expecting colon delimiter"
      else Except.error "Expecting property name enclosed in double quotes"
    | [] => Except.error "Expecting property name enclosed in double quotes"

/-- Python dict insertion: an existing key keeps its position and takes
the new value, a new key is appended. -/
def dictInsert : List (String × String) → String → String →
    List (String × String)
  | [], k, v => [(k, v)]
  | (k1, v1) :: rest, k, v =>
    if k1 = k then (k1, v) :: rest
    else (k1, v1) :: dictInsert rest k v

/-- Collapse parsed members into a dict, later duplicates overwriting
earlier ones, as `json.loads` does. -/
def dictCollapse (kvs : List (String × String)) : List (String × String) :=
  kvs.foldl (fun d kv => dictInsert d kv.1 kv.2) []

/-- `json.loads` for a flat object of string fields: optional
whitespace, `{`, members, `}`, optional trailing whitespace. -/
def parseFlatObject (s : String) : Except String (List (String × String)) :=
  match skipWs s.toList with
  | c :: rest =>
    if c = lbrace then
      match skipWs rest with
      | d :: rest2 =>
        if d = rbrace then
          if (skipWs rest2).isEmpty then Except.ok []
          else Except.error "Extra data"
        else
          match parseMembersAux ((skipWs rest).length + 1) (skipWs rest) with
          | Except.error e => Except.error e
          | Except.ok (kvs, rem) =>
            if (skipWs rem).isEmpty then Except.ok (dictCollapse kvs)
            else Except.error "Extra data"
      | [] => Except.error "Expecting property name enclosed in double quotes"
    else Except.error "Expecting value"
  | [] => Except.error "Expecting value"

/-- `PromptSettings(**kwargs)`: a plain dataclass constructor requires
exactly the keyword arguments `provider` and `model`; anything else is
a `TypeError`. -/
def PromptSettings.from_kwargs (d : List (String × String)) :
    Except PyError PromptSettings :=
  if d.any (fun kv => !(kv.1 == "provider" || kv.1 == "model")) then
    Except.error
      (PyError.typeError "PromptSettings() got an unexpected keyword argument")
  else
    match d.lookup "provider", d.lookup "model" with
    | some p, some m => Except.ok ⟨p, m⟩
    | _, _ =>
      Except.error
        (PyError.typeError "PromptSettings() missing required arguments")

/-- The settings step of `PromptLoader.__init__`:
`json.loads(content)` (failures are `json.JSONDecodeError`, a
`ValueError` subclass) followed by `PromptSettings(**json)`. -/
def parseSettings (content : String) : Except PyError PromptSettings :=
  match parseFlatObject content with
  | Except.error m => Except.error (PyError.jsonDecodeError m)
  | Except.ok d => PromptSettings.from_kwargs d

/-! ## storage_providers.py -/

/-- The file-record dictionaries returned by the listing operations:
`{name, filename, size, created_at, modified_at, content_type}`.
Timestamps are abstracted to naturals. -/
structure FileRecord where
  name : String
  filename : String
  size : Nat
  created_at : Nat
  modified_at : Nat
  content_type : String
deriving DecidableEq

/-- The `StorageProviderBase` interface as consumed by `PromptLoader`:
a listing, a downloader (bytes modelled by their decoded text) and an
existence probe. -/
structure StorageProvider where
  list_files : List FileRecord
  download_file : String → Option String
  file_exists : String → Bool

/-- `MemoryProvider`: in-process prompt content. -/
structure MemoryProvider where
  system_prompt : String
  prompt_settings : PromptSettings
  user_prompt : String
deriving DecidableEq

/-- `MemoryProvider.list_files`: records for `settings.json` and
`system.md` always, plus `user.md` when the user text is truthy
(non-empty). -/
def MemoryProvider.list_files (p : MemoryProvider) : List FileRecord :=
  let files : List FileRecord :=
    [⟨"settings.json", "settings.json",
        (dumpsSettings p.prompt_settings).length, 0, 0, "application/json"⟩,
      ⟨"system.md", "system.md", p.system_prompt.utf8ByteSize, 0, 0,
        "text/markdown"⟩]
  if p.user_prompt ≠ "" then
    files ++ [⟨"user.md", "user.md", p.user_prompt.utf8ByteSize, 0, 0,
      "text/markdown"⟩]
  else files

/-- `MemoryProvider.download_file`: synthesizes the three artifacts on
demand; `user.md` exists only when the user text is non-empty. -/
def MemoryProvider.download_file (p : MemoryProvider) (file_name : String) :
    Option String :=
  if file_name = "settings.json" then some (dumpsSettings p.prompt_settings)
  else if file_name = "system.md" then some p.system_prompt
  else if file_name = "user.md" then
    if p.user_prompt ≠ "" then some p.user_prompt else none
  else none

/-- `MemoryProvider.file_exists`. -/
def MemoryProvider.file_exists (p : MemoryProvider) (file_name : String) :
    Bool :=
  if file_name = "user.md" then !(p.user_prompt == "")
  else file_name == "settings.json" || file_name == "system.md"

/-- A `MemoryProvider` seen through the provider interface. -/
def MemoryProvider.toStorageProvider (p : MemoryProvider) : StorageProvider :=
  ⟨p.list_files, p.download_file, p.file_exists⟩

/-- One entry of the prompt directory as seen by `os.listdir`: a
regular file (with content, `os.stat` metadata, and a flag modelling
an I/O error raised while opening or reading it) or a subdirectory. -/
inductive FsEntry where
  | file (name : String) (content : String) (size ctime mtime : Nat)
      (readFails : Bool)
  | dir (name : String)
deriving DecidableEq

/-- The directory-entry name. -/
def FsEntry.name : FsEntry → String
  | FsEntry.file nm _ _ _ _ _ => nm
  | FsEntry.dir nm => nm

/-- `FileSystemProvider`: the state of the prompt directory it was
constructed over.  `listFails` models an exception raised by
`os.listdir` or `os.stat` inside the `try` of `list_files` (the
construction-time existence and is-directory checks are assumed to
have passed). -/
structure FileSystemProvider where
  entries : List FsEntry
  listFails : Bool
deriving DecidableEq

/-- `FileSystemProvider._get_content_type`: the extension computed by
`os.path.splitext` (last dot with a non-dot character somewhere before
it), lowercased, looked up in the static mapping. -/
def splitextExt (cs : List Char) : List Char :=
  let revTail := cs.reverse.takeWhile (fun c => c ≠ '.')
  if revTail.length = cs.length then []
  else
    let stem := cs.take (cs.length - revTail.length - 1)
    if stem.any (fun c => c ≠ '.') then '.' :: revTail.reverse
    else []

/-- The static extension-to-content-type mapping with its
octet-stream default. -/
def FileSystemProvider.get_content_type (filename : String) : String :=
  let ext := String.mk ((splitextExt filename.toList).map Char.toLower)
  if ext = ".json" then "application/json"
  else if ext = ".md" then "text/markdown"
  else if ext = ".txt" then "text/plain"
  else if ext = ".yaml" then "text/yaml"
  else if ext = ".yml" then "text/yaml"
  else "application/octet-stream"

/-- `FileSystemProvider.list_files`: `os.listdir` filtered by
`os.path.isfile` with an `os.stat` record per file; any exception in
the `try` discards everything and returns `[]`. -/
def FileSystemProvider.list_files (d : FileSystemProvider) :
    List FileRecord :=
  if d.listFails then []
  else
    d.entries.filterMap (fun e =>
      match e with
      | FsEntry.file nm _ sz ct mt _ =>
        some ⟨nm, nm, sz, ct, mt, FileSystemProvider.get_content_type nm⟩
      | FsEntry.dir _ => none)

/-- `os.path.exists(os.path.join(self._prompt_path, file_name))`: the
empty name resolves to the prompt directory itself, which exists;
otherwise the joined path exists exactly when the directory has an
entry of that name. -/
def FileSystemProvider.path_exists (d : FileSystemProvider)
    (file_name : String) : Bool :=
  file_name == "" || d.entries.any (fun e => e.name == file_name)

/-- `FileSystemProvider.download_file`: `None` when the joined path
does not exist; otherwise `open(file_path, 'rb').read()` inside a
`try` whose `except` returns `None` — opening the directory itself
(empty name) or a subdirectory raises `IsADirectoryError`, and a
failing read raises an `OSError`, all caught. -/
def FileSystemProvider.download_file (d : FileSystemProvider)
    (file_name : String) : Option String :=
  if !(d.path_exists file_name) then none
  else if file_name = "" then none
  else
    match d.entries.find? (fun e => e.name == file_name) with
    | some (FsEntry.file _ content _ _ _ readFails) =>
      if readFails then none else some content
    | some (FsEntry.dir _) => none
    | none => none

/-- `FileSystemProvider.file_exists`: `os.path.isfile` on the joined
path. -/
def FileSystemProvider.file_exists (d : FileSystemProvider)
    (file_name : String) : Bool :=
  d.entries.any (fun e =>
    match e with
    | FsEntry.file nm _ _ _ _ _ => nm == file_name
    | FsEntry.dir _ => false)

/-- A `FileSystemProvider` seen through the provider interface. -/
def FileSystemProvider.toStorageProvider (d : FileSystemProvider) :
    StorageProvider :=
  ⟨d.list_files, d.download_file, d.file_exists⟩

/-! ## prompt_loader.py: the loader -/

/-- The state a `PromptLoader` holds after `__init__`. -/
structure PromptLoader (σ τ : Type) where
  system_prompt : String
  user_prompt : String
  prompt_settings : PromptSettings
  response_schema : Option σ
  tools : Option (List τ)
deriving DecidableEq

/-- `PromptLoader.__init__`: fail when the listing is empty
(`ValueError("Prompt does not exist in storage")`); download and parse
`settings.json` (required); download `system.md` (required); download
`user.md` (optional, defaulting to the empty string); then fill
placeholders when a truthy mapping was supplied.  Every raised
exception becomes an `Except.error`. -/
def PromptLoader.init {σ τ : Type} (provider : StorageProvider)
    (placeholders : List (String × String)) (response_schema : Option σ)
    (tools : Option (List τ)) : Except PyError (PromptLoader σ τ) :=
  if provider.list_files.isEmpty then
    Except.error (PyError.valueError "Prompt does not exist in storage")
  else
    match provider.download_file "settings.json" with
    | none =>
      Except.error
        (PyError.valueError "settings.json not found in prompt directory")
    | some settingsContent =>
      match parseSettings settingsContent with
      | Except.error e => Except.error e
      | Except.ok prompt_settings =>
        match provider.download_file "system.md" with
        | none =>
          Except.error
            (PyError.valueError "system.md not found in prompt directory")
        | some system_prompt =>
          let user_prompt :=
            match provider.download_file "user.md" with
            | some u => u
            | none => ""
          if placeholders.isEmpty then
            Except.ok ⟨system_prompt, user_prompt, prompt_settings,
              response_schema, tools⟩
          else
            Except.ok ⟨fillText system_prompt placeholders,
              fillText user_prompt placeholders, prompt_settings,
              response_schema, tools⟩

/-- `PromptLoader.get_prompt`: the source calls
`Prompt.from_definition(system_prompt=..., user_prompt=...,
prompt_settings=..., response_schema=...)` without a `tools` argument,
so the `tools` parameter takes its default `None`; the loader's stored
`self._tools` is never forwarded. -/
def PromptLoader.get_prompt {σ τ : Type} (l : PromptLoader σ τ) :
    Prompt σ τ :=
  Prompt.from_definition l.system_prompt l.user_prompt l.prompt_settings
    l.response_schema none

/-- `PromptLoader.get_prompt_settings`. -/
def PromptLoader.get_prompt_settings {σ τ : Type} (l : PromptLoader σ τ) :
    PromptSettings :=
  l.prompt_settings

/-! ## model_client.py: the two-phase text-completion orchestration

The transport (`self._client.chat.completions.create(...)` followed by
`.choices[0].message`) is a black-box collaborator: it is modelled as
a function from the call's payload (model, messages, declared tools)
to the returned assistant message.  To express how many transport
calls an operation performs, the embedding returns the sequence of
calls it issued alongside the final text. -/

/-- One raw tool call from the first response:
`{tool_call.id, tool_call.function.name, tool_call.function.arguments}`
with the arguments still a JSON-encoded string. -/
structure RawToolCall where
  id : String
  function_name : String
  arguments : String
deriving DecidableEq

/-- The assistant message returned by one transport call:
`{content, tool_calls}` (the latter `None` when the model issued no
tool calls). -/
structure AssistantMessage where
  content : String
  tool_calls : Option (List RawToolCall)
deriving DecidableEq

/-- A message in the conversation list: the `{'role':…, 'content':…}`
dictionaries of the base conversation, the raw assistant message
object appended verbatim after the first call, or a
`{'role': 'tool', 'tool_call_id':…, 'content':…}` dictionary. -/
inductive ChatMessage where
  | role_content (role content : String)
  | assistant_raw (m : AssistantMessage)
  | tool_result (tool_call_id content : String)
deriving DecidableEq

/-- The payload of one `chat.completions.create` invocation. -/
structure ChatCall (τ : Type) where
  model : String
  messages : List ChatMessage
  tools : Option (List τ)
deriving DecidableEq

/-- `ModelClient._build_base_messages`: the system-role and user-role
messages built from the prompt. -/
def ModelClient.build_base_messages {σ τ : Type} (prompt : Prompt σ τ) :
    List ChatMessage :=
  [ChatMessage.role_content "system" prompt.system_prompt,
    ChatMessage.role_content "user" prompt.user_prompt]

/-- `json.loads(tool_call.function.arguments)`: decodes the payload of
one tool call (same flat-object restriction as `Args`). -/
def parseArgsJson (s : String) : Except String Args :=
  parseFlatObject s

/-- The list comprehension building `tool_requests`: left to right, a
`json.loads` failure on any payload aborts the whole construction
(fatal before dispatch isolation begins). -/
def decode_tool_requests :
    List RawToolCall → Except String (List ToolCallRequest)
  | [] => Except.ok []
  | tc :: rest =>
    match parseArgsJson tc.arguments with
    | Except.error e => Except.error e
    | Except.ok args =>
      match decode_tool_requests rest with
      | Except.error e => Except.error e
      | Except.ok reqs =>
        Except.ok (⟨tc.id, tc.function_name, args⟩ :: reqs)

/-- `ModelClient.get_text_completion`.  With no tools on the prompt:
one transport call with the base messages, whose text content is
returned verbatim.  With tools: a first call with the base messages
and the declared tools; the raw tool calls are decoded (iterating a
`None` `tool_calls` raises `TypeError`; malformed JSON arguments raise
fatally), dispatched through `ToolRunner.run_tools` against the
process-wide registry (passed explicitly here), and a second call is
made with the base messages, the raw assistant message, and one
tool-role message per response carrying its `tool_call_id` and the
string form of its `result` (responses hold strings, so `str` is the
identity); the second call's text content is final.  The returned
list records the transport calls in order. -/
def ModelClient.get_text_completion {σ τ : Type}
    (transport : ChatCall τ → AssistantMessage) (reg : ToolRegistry)
    (prompt : Prompt σ τ) : Except String (String × List (ChatCall τ)) :=
  match prompt.tools with
  | none =>
    let call := ChatCall.mk prompt.settings.model
      (ModelClient.build_base_messages prompt) none
    Except.ok ((transport call).content, [call])
  | some ts =>
    let call1 := ChatCall.mk prompt.settings.model
      (ModelClient.build_base_messages prompt) (some ts)
    let msg1 := transport call1
    match msg1.tool_calls with
    | none => Except.error "TypeError: NoneType object is not iterable"
    | some raws =>
      match decode_tool_requests raws with
      | Except.error e => Except.error e
      | Except.ok reqs =>
        let results := (ToolRunner.run_tools reg reqs).1
        let messages2 := ModelClient.build_base_messages prompt ++
          [ChatMessage.assistant_raw msg1] ++
          results.map (fun r =>
            ChatMessage.tool_result r.tool_call_id r.result)
        let call2 := ChatCall.mk prompt.settings.model messages2 (some ts)
        Except.ok ((transport call2).content, [call1, call2])

/-! ## Concrete instances used by the witnesses -/

/-- A registry holding one tool, used to exercise the dispatch loop on
concrete inputs. -/
def demoRegistry : ToolRegistry :=
  ⟨[("GetCurrentTime", ⟨fun _ => Except.ok "2025-01-01 00:00:00 UTC"⟩)]⟩

/-- A request naming a tool that is not registered in `demoRegistry`. -/
def demoUnknownReq : ToolCallRequest :=
  ⟨"call_9", "NoSuchTool", []⟩

/-- A request for the registered tool of `demoRegistry`. -/
def demoKnownReq : ToolCallRequest :=
  ⟨"call_1", "GetCurrentTime", []⟩

/-- A concrete in-memory prompt with a non-empty user text. -/
def demoMemProvider : MemoryProvider :=
  ⟨"You are a helpful assistant.", ⟨"openai", "gpt-4"⟩, "Hello"⟩

/-- A loader constructed over `demoMemProvider` with a tools list. -/
def c3Loader : Except PyError (PromptLoader Unit String) :=
  PromptLoader.init demoMemProvider.toStorageProvider [] none
    (some ["GetCurrentTime"])

/-- A provider whose listing is non-empty yet where no artifact can be
downloaded (so `settings.json` is absent). -/
def noSettingsProvider : StorageProvider :=
  ⟨[⟨"system.md", "system.md", 4, 0, 0, "text/markdown"⟩],
    fun _ => none, fun _ => false⟩

/-- A provider with settings but no `system.md`. -/
def noSystemProvider : StorageProvider :=
  ⟨[⟨"settings.json", "settings.json", 42, 0, 0, "application/json"⟩],
    fun name =>
      if name = "settings.json" then
        some (dumpsSettings ⟨"openai", "gpt-4"⟩)
      else none,
    fun name => name == "settings.json"⟩

/-- A provider with settings and system text but no `user.md`. -/
def noUserProvider : StorageProvider :=
  ⟨[⟨"settings.json", "settings.json", 42, 0, 0, "application/json"⟩,
      ⟨"system.md", "system.md", 3, 0, 0, "text/markdown"⟩],
    fun name =>
      if name = "settings.json" then
        some (dumpsSettings ⟨"openai", "gpt-4"⟩)
      else if name = "system.md" then some "Sys"
      else none,
    fun name => name == "settings.json" || name == "system.md"⟩

/-- A prompt directory holding a file whose name is a single space. -/
def wsDir : FileSystemProvider :=
  ⟨[FsEntry.file " " "secret" 6 0 0 false], false⟩

/-- A healthy prompt directory with one file and one subdirectory. -/
def okDir : FileSystemProvider :=
  ⟨[FsEntry.file "system.md" "You are helpful." 16 0 0 false,
      FsEntry.dir "sub"], false⟩

/-- A directory whose listing raises and whose file read raises. -/
def failDir : FileSystemProvider :=
  ⟨[FsEntry.file "a.md" "x" 1 0 0 true], true⟩

/-- A prompt that declares no tools. -/
def demoPromptNoTools : Prompt Unit String :=
  ⟨"Sys", "Usr", ⟨"openai", "gpt-4"⟩, none, none⟩

/-- A prompt declaring the two tools of the spec's scenario B. -/
def demoPromptTools : Prompt Unit String :=
  ⟨"Sys", "Usr", ⟨"openai", "gpt-4"⟩, none,
    some ["GetCurrentTime", "IsWeekend"]⟩

/-- A registry holding the two tools of the spec's scenario B. -/
def demoRegistryTwo : ToolRegistry :=
  ⟨[("GetCurrentTime", ⟨fun _ => Except.ok "2025-01-01 00:00:00 UTC"⟩),
      ("IsWeekend", ⟨fun _ => Except.ok "True"⟩)]⟩

/-- A scripted transport: on the two-message base conversation it
answers plainly without tools, or with two tool calls when tools are
declared; on any longer conversation it answers with the final text. -/
def demoTransport : ChatCall String → AssistantMessage := fun call =>
  if call.messages.length = 2 then
    if call.tools.isSome then
      ⟨"", some [⟨"call_1", "GetCurrentTime", "\x7b\x7d"⟩,
        ⟨"call_2", "IsWeekend", "\x7b\x7d"⟩]⟩
    else ⟨"plain answer", none⟩
  else ⟨"final answer", none⟩

end SmartPrompt

namespace SmartPrompt

/-! ## Lemmas about the dispatch loop -/

/-- `get_tool` performs no write: the out-state equals the in-state. -/
theorem ToolRegistry.get_tool_snd (reg : ToolRegistry) (name : String) :
    (reg.get_tool name).2 = reg := rfl

/-- Dispatching one call leaves the registry unchanged. -/
theorem ToolRunner.dispatch_tool_call_snd (reg : ToolRegistry)
    (req : ToolCallRequest) :
    (ToolRunner.dispatch_tool_call reg req).2 = reg := by
  unfold ToolRunner.dispatch_tool_call
  split
  · rfl
  · split <;> rfl

/-- The response to one dispatched call always carries the request's
`id` as its `tool_call_id`, and the request's `function_name` and
`arguments`. -/
theorem ToolRunner.dispatch_tool_call_fields (reg : ToolRegistry)
    (req : ToolCallRequest) :
    (ToolRunner.dispatch_tool_call reg req).1.tool_call_id = req.id ∧
    (ToolRunner.dispatch_tool_call reg req).1.function_name = req.function_name ∧
    (ToolRunner.dispatch_tool_call reg req).1.arguments = req.arguments := by
  unfold ToolRunner.dispatch_tool_call
  split
  · exact ⟨rfl, rfl, rfl⟩
  · split <;> exact ⟨rfl, rfl, rfl⟩

theorem ToolRunner.run_tools_go_spec (reg : ToolRegistry)
    (reqs : List ToolCallRequest) :
    ToolRunner.run_tools_go reg reqs =
      (reqs.map (fun q => (ToolRunner.dispatch_tool_call reg q).1), reg) := by
  induction reqs with
  | nil => rfl
  | cons q rest ih =>
    simp only [ToolRunner.run_tools_go, ToolRunner.dispatch_tool_call_snd, ih,
      List.map_cons]

/-- `run_tools` maps dispatch over the batch and leaves the registry
unchanged. -/
theorem ToolRunner.run_tools_spec (reg : ToolRegistry)
    (reqs : List ToolCallRequest) :
    ToolRunner.run_tools reg reqs =
      (reqs.map (fun q => (ToolRunner.dispatch_tool_call reg q).1), reg) := by
  unfold ToolRunner.run_tools
  rcases reqs with _ | ⟨q, rest⟩
  · rfl
  · simp [ToolRunner.run_tools_go_spec]

/-- The response batch has the same length as the request batch. -/
theorem ToolRunner.run_tools_fst_length (reg : ToolRegistry)
    (reqs : List ToolCallRequest) :
    (ToolRunner.run_tools reg reqs).1.length = reqs.length := by
  rw [ToolRunner.run_tools_spec]
  simp

/-- C1: for every batch of `ToolCallRequest` values fed to
`ToolRunner.run_tools` (any length, including the empty batch, and
regardless of which individual calls fail), the response list has
exactly the batch's length, the i-th response is the dispatch of the
i-th request (order preserved by position), and the i-th response's
`tool_call_id` equals the i-th request's `id`.  `run_tools` is a total
function, so no exception escapes it. -/
theorem run_tools_batch_shape (reg : ToolRegistry)
    (reqs : List ToolCallRequest) :
    (ToolRunner.run_tools reg reqs).1.length = reqs.length ∧
    ∀ i : Fin reqs.length,
      (ToolRunner.run_tools reg reqs).1.get
          (Fin.cast (ToolRunner.run_tools_fst_length reg reqs).symm i) =
        (ToolRunner.dispatch_tool_call reg (reqs.get i)).1 ∧
      ((ToolRunner.run_tools reg reqs).1.get
          (Fin.cast (ToolRunner.run_tools_fst_length reg reqs).symm i)).tool_call_id
        = (reqs.get i).id := by
  refine ⟨ToolRunner.run_tools_fst_length reg reqs, ?_⟩
  intro i
  have hmap := ToolRunner.run_tools_spec reg reqs
  have hget : (ToolRunner.run_tools reg reqs).1.get
      (Fin.cast (ToolRunner.run_tools_fst_length reg reqs).symm i) =
      (ToolRunner.dispatch_tool_call reg (reqs.get i)).1 := by
    simp only [List.get_eq_getElem, Fin.coe_cast]
    have : (ToolRunner.run_tools reg reqs).1 =
        reqs.map (fun q => (ToolRunner.dispatch_tool_call reg q).1) := by
      rw [hmap]
    simp [this]
  refine ⟨hget, ?_⟩
  rw [hget]
  exact (ToolRunner.dispatch_tool_call_fields reg (reqs.get i)).1

/-- C1 witness: a concrete one-request batch over `demoRegistry` yields
a response list of length one. -/
theorem run_tools_batch_shape_witness :
    (ToolRunner.run_tools demoRegistry [demoKnownReq]).1.length = 1 :=
  (run_tools_batch_shape demoRegistry [demoKnownReq]).1

/-- C2: dispatching a `ToolCallRequest` whose `function_name` is not
registered yields a `status: 'error'` response whose `result` is the
`ValueError` message of `ToolRegistry.get_tool`, which names the
attempted tool and enumerates the currently known tool names; the
error is materialised as a response rather than re-raised (the loop
over a batch containing the request completes and returns it), and the
registry's entries are unchanged by the failed lookup. -/
theorem dispatch_unknown_tool (reg : ToolRegistry) (req : ToolCallRequest)
    (h : reg.tools.lookup req.function_name = none) :
    (ToolRunner.dispatch_tool_call reg req).1.status = "error" ∧
    (ToolRunner.dispatch_tool_call reg req).1.tool_call_id = req.id ∧
    (ToolRunner.dispatch_tool_call reg req).1.result =
      toolNotFoundMessage req.function_name reg.get_tool_names ∧
    (∃ a b, (ToolRunner.dispatch_tool_call reg req).1.result =
      a ++ req.function_name ++ b) ∧
    (ToolRunner.dispatch_tool_call reg req).2 = reg ∧
    (ToolRunner.run_tools reg [req]).1 =
      [(ToolRunner.dispatch_tool_call reg req).1] ∧
    (ToolRunner.run_tools reg [req]).2 = reg := by
  have hres : (ToolRunner.dispatch_tool_call reg req).1 =
      ⟨req.id, req.function_name, req.arguments,
        toolNotFoundMessage req.function_name reg.get_tool_names, "error"⟩ := by
    unfold ToolRunner.dispatch_tool_call ToolRegistry.get_tool
      ToolRegistry.get_tool_res
    rw [h]
  refine ⟨by rw [hres], by rw [hres], by rw [hres], ?_, ?_, ?_, ?_⟩
  · refine ⟨"Tool \x27",
      "\x27 not found. Available tools: " ++ pyStrList reg.get_tool_names, ?_⟩
    rw [hres]
    simp [toolNotFoundMessage, String.append_assoc]
  · exact ToolRunner.dispatch_tool_call_snd reg req
  · rw [ToolRunner.run_tools_spec]; rfl
  · rw [ToolRunner.run_tools_spec]

/-- C2 witness: the unknown-name request `demoUnknownReq` dispatched
against `demoRegistry` produces an error response and leaves the
registry unchanged. -/
theorem dispatch_unknown_tool_witness :
    (ToolRunner.dispatch_tool_call demoRegistry demoUnknownReq).1.status =
      "error" ∧
    (ToolRunner.dispatch_tool_call demoRegistry demoUnknownReq).2 =
      demoRegistry :=
  ⟨(dispatch_unknown_tool demoRegistry demoUnknownReq rfl).1,
    (dispatch_unknown_tool demoRegistry demoUnknownReq rfl).2.2.2.2.1⟩

/-! ## Lemmas about placeholder substitution -/

theorem mk_toList (s : String) : String.mk s.toList = s := rfl

theorem isPrefixOf_append_self (l s : List Char) :
    l.isPrefixOf (l ++ s) = true := by
  induction l with
  | nil => simp [List.isPrefixOf]
  | cons a as ih => simp [List.isPrefixOf, ih]

/-- `str.replace` passes over a stretch of characters that cannot start
the pattern. -/
theorem replaceAllChars_skip (p' rep : List Char) (a s : List Char)
    (ha : ∀ c ∈ a, c ≠ lbrace) :
    replaceAllChars (lbrace :: p') rep (a ++ s) =
      a ++ replaceAllChars (lbrace :: p') rep s := by
  induction a with
  | nil => simp
  | cons c a ih =>
    have hc : c ≠ lbrace := ha c (by simp)
    have ha2 : ∀ x ∈ a, x ≠ lbrace := fun x hx => ha x (by simp [hx])
    rw [List.cons_append]
    simp only [replaceAllChars]
    rw [if_neg, ih ha2, List.cons_append]
    rintro ⟨-, hpre⟩
    simp only [List.isPrefixOf, Bool.and_eq_true, beq_iff_eq] at hpre
    exact hc hpre.1.symm

/-- `str.replace` substitutes the pattern where it occurs and continues
after the replacement. -/
theorem replaceAllChars_at (pat rep s : List Char) (hne : pat ≠ []) :
    replaceAllChars pat rep (pat ++ s) = rep ++ replaceAllChars pat rep s := by
  obtain ⟨q, qs, rfl⟩ : ∃ q qs, pat = q :: qs := by
    cases pat with
    | nil => exact absurd rfl hne
    | cons q qs => exact ⟨q, qs, rfl⟩
  rw [List.cons_append]
  simp only [replaceAllChars]
  have hcond : (q :: qs) ≠ [] ∧ (q :: qs).isPrefixOf (q :: (qs ++ s)) := by
    refine ⟨by simp, ?_⟩
    rw [← List.cons_append]
    exact isPrefixOf_append_self (q :: qs) s
  rw [if_pos hcond, ← List.cons_append, List.drop_left]

/-- A text without `{` is unchanged by replacing a brace-initial
pattern. -/
theorem replaceAllChars_nolb (p' rep : List Char) (s : List Char)
    (hs : ∀ c ∈ s, c ≠ lbrace) :
    replaceAllChars (lbrace :: p') rep s = s := by
  have h := replaceAllChars_skip p' rep s [] hs
  simp only [List.append_nil] at h
  rw [h]
  simp [replaceAllChars]

/-- The regex scan finds nothing inside a stretch without `{`. -/
theorem findallChars_skip (a s : List Char) (ha : ∀ c ∈ a, c ≠ lbrace) :
    findallChars (a ++ s) = findallChars s := by
  induction a with
  | nil => simp
  | cons c a ih =>
    have hc : c ≠ lbrace := ha c (by simp)
    have ha2 : ∀ x ∈ a, x ≠ lbrace := fun x hx => ha x (by simp [hx])
    rw [List.cons_append]
    simp only [findallChars]
    rw [if_neg hc]
    exact ih ha2

/-- The lazy closing scan captures exactly a name free of `}` and
newline. -/
theorem takeToBrace_token (n s : List Char)
    (hn : ∀ c ∈ n, c ≠ rbrace ∧ c ≠ '\n') :
    takeToBrace (n ++ rbrace :: s) = some (n, s) := by
  induction n with
  | nil => simp [takeToBrace]
  | cons c n ih =>
    have hc := hn c (by simp)
    have hn2 : ∀ x ∈ n, x ≠ rbrace ∧ x ≠ '\n' := fun x hx => hn x (by simp [hx])
    rw [List.cons_append]
    simp only [takeToBrace]
    rw [if_neg hc.1, if_neg hc.2, ih hn2]

/-- The regex scan at a `{name}` token captures the name and resumes
after the `}`. -/
theorem findallChars_token (n s : List Char)
    (hn : ∀ c ∈ n, c ≠ rbrace ∧ c ≠ '\n') :
    findallChars (lbrace :: (n ++ rbrace :: s)) = n :: findallChars s := by
  simp only [findallChars]
  rw [if_pos trivial]
  split
  · rename_i nm rest heq
    have h2 := (takeToBrace_token n s hn).symm.trans heq
    rw [Option.some_inj] at h2
    cases h2
    rfl
  · rename_i heq
    have h2 := (takeToBrace_token n s hn).symm.trans heq
    exact absurd h2 (by simp)

/-- On a text that is segments free of `{` joined by `{name}` tokens,
the scan finds exactly one copy of the name per token. -/
theorem findallChars_join (nm : List Char) (partsL : List (List Char))
    (hnm : ∀ c ∈ nm, c ≠ rbrace ∧ c ≠ '\n')
    (hp : ∀ p ∈ partsL, ∀ c ∈ p, c ≠ lbrace) :
    findallChars (joinSep (lbrace :: (nm ++ [rbrace])) partsL) =
      List.replicate (partsL.length - 1) nm := by
  induction partsL with
  | nil => simp [joinSep, findallChars]
  | cons p ps ih =>
    cases ps with
    | nil =>
      have h := findallChars_skip p [] (hp p (by simp))
      simp only [List.append_nil] at h
      simp only [joinSep, h]
      simp [findallChars]
    | cons q qs =>
      have hp2 : ∀ x ∈ q :: qs, ∀ c ∈ x, c ≠ lbrace :=
        fun x hx => hp x (by simp at hx ⊢; tauto)
      have hshape1 :
          joinSep (lbrace :: (nm ++ [rbrace])) (p :: q :: qs) =
            p ++ ((lbrace :: (nm ++ [rbrace])) ++
              joinSep (lbrace :: (nm ++ [rbrace])) (q :: qs)) := by
        simp [joinSep]
      rw [hshape1, findallChars_skip p _ (hp p (by simp))]
      have hshape2 :
          (lbrace :: (nm ++ [rbrace])) ++
              joinSep (lbrace :: (nm ++ [rbrace])) (q :: qs) =
            lbrace :: (nm ++ rbrace ::
              joinSep (lbrace :: (nm ++ [rbrace])) (q :: qs)) := by
        simp
      rw [hshape2, findallChars_token nm _ hnm, ih hp2]
      simp [List.replicate_succ]

/-- Replacing the token by the value on a joined text substitutes every
separator. -/
theorem replaceAllChars_join (nm v : List Char) (partsL : List (List Char))
    (hp : ∀ p ∈ partsL, ∀ c ∈ p, c ≠ lbrace) :
    replaceAllChars (lbrace :: (nm ++ [rbrace])) v
        (joinSep (lbrace :: (nm ++ [rbrace])) partsL) =
      joinSep v partsL := by
  induction partsL with
  | nil => simp [joinSep, replaceAllChars]
  | cons p ps ih =>
    cases ps with
    | nil =>
      simp only [joinSep]
      exact replaceAllChars_nolb _ v p (hp p (by simp))
    | cons q qs =>
      have hp2 : ∀ x ∈ q :: qs, ∀ c ∈ x, c ≠ lbrace :=
        fun x hx => hp x (by simp at hx ⊢; tauto)
      have hshape :
          joinSep (lbrace :: (nm ++ [rbrace])) (p :: q :: qs) =
            p ++ ((lbrace :: (nm ++ [rbrace])) ++
              joinSep (lbrace :: (nm ++ [rbrace])) (q :: qs)) := by
        simp [joinSep]
      rw [hshape,
        replaceAllChars_skip _ v p _ (hp p (by simp)),
        replaceAllChars_at _ v _ (by simp), ih hp2]
      simp [joinSep]

/-- A joined text over `{`-free value and segments is `{`-free. -/
theorem joinSep_nolb (v : List Char) (partsL : List (List Char))
    (hv : ∀ c ∈ v, c ≠ lbrace) (hp : ∀ p ∈ partsL, ∀ c ∈ p, c ≠ lbrace) :
    ∀ c ∈ joinSep v partsL, c ≠ lbrace := by
  induction partsL with
  | nil => simp [joinSep]
  | cons p ps ih =>
    cases ps with
    | nil => exact hp p (by simp)
    | cons q qs =>
      have hp2 : ∀ x ∈ q :: qs, ∀ c ∈ x, c ≠ lbrace :=
        fun x hx => hp x (by simp at hx ⊢; tauto)
      intro c hc
      simp only [joinSep, List.mem_append] at hc
      rcases hc with (hc | hc) | hc
      · exact hp p (by simp) c hc
      · exact hv c hc
      · exact ih hp2 c hc

/-- A loop step for a name that is not a key leaves the text
unchanged. -/
theorem fillStep_of_lookup_none (ph : List (String × String)) (t p : String)
    (h : ph.lookup p = none) : fillStep ph t p = t := by
  unfold fillStep
  rw [h]

/-- The loop leaves the text unchanged when no found name is a key. -/
theorem foldl_fillStep_none (ph : List (String × String)) (l : List String) :
    ∀ t : String, (∀ p ∈ l, ph.lookup p = none) →
      l.foldl (fillStep ph) t = t := by
  induction l with
  | nil => intro t _; rfl
  | cons p l ih =>
    intro t h
    rw [List.foldl_cons, fillStep_of_lookup_none ph t p (h p (by simp))]
    exact ih t (fun x hx => h x (by simp [hx]))

/-- A loop step on a text without `{` leaves it unchanged. -/
theorem fillStep_nolb (ph : List (String × String)) (t p : String)
    (ht : ∀ c ∈ t.toList, c ≠ lbrace) : fillStep ph t p = t := by
  unfold fillStep
  cases h : ph.lookup p with
  | none => rfl
  | some v =>
    show pyReplace t (String.mk (lbrace :: p.toList ++ [rbrace])) v = t
    unfold pyReplace
    rw [show (String.mk (lbrace :: p.toList ++ [rbrace])).toList =
        lbrace :: (p.toList ++ [rbrace]) from rfl]
    rw [replaceAllChars_nolb _ _ _ ht, mk_toList]

/-- The loop on a text without `{` leaves it unchanged whatever names
remain. -/
theorem foldl_fillStep_nolb (ph : List (String × String)) (l : List String)
    (t : String) (ht : ∀ c ∈ t.toList, c ≠ lbrace) :
    l.foldl (fillStep ph) t = t := by
  induction l with
  | nil => rfl
  | cons p l ih => rw [List.foldl_cons, fillStep_nolb ph t p ht]; exact ih

/-- C5: placeholder substitution as performed once at load time by
`PromptLoader._fill_placeholders` on a text field.  (i) with an empty
mapping the text is unchanged (`substitute(text, {}) == text`);
(ii) when no token found by the scan is a key of the mapping the text
is left verbatim; (iii) on a text made of `{`-free segments joined by
occurrences of the token `{name}` (the name free of `}` and newline),
if the name maps to a `{`-free value then every occurrence of the
token is replaced by that value, whatever else the mapping contains. -/
theorem fill_placeholders_spec :
    (∀ text : String, fillText text [] = text) ∧
    (∀ (text : String) (ph : List (String × String)),
      (∀ p ∈ findPlaceholders text, ph.lookup p = none) →
      fillText text ph = text) ∧
    (∀ (nm v : String) (parts : List String) (ph : List (String × String)),
      ph.lookup nm = some v →
      (∀ c ∈ nm.toList, c ≠ rbrace ∧ c ≠ '\n') →
      (∀ part ∈ parts, ∀ c ∈ part.toList, c ≠ lbrace) →
      (∀ c ∈ v.toList, c ≠ lbrace) →
      parts ≠ [] →
      fillText (joinWith (String.mk (tokenChars nm)) parts) ph =
        joinWith v parts) := by
  refine ⟨?_, ?_, ?_⟩
  · intro text
    exact foldl_fillStep_none [] (findPlaceholders text) text (by simp)
  · intro text ph h
    exact foldl_fillStep_none ph (findPlaceholders text) text h
  · intro nm v parts ph hlk hnm hparts hv hne
    have hpL : ∀ p ∈ parts.map String.toList, ∀ c ∈ p, c ≠ lbrace := by
      intro p hp c hc
      obtain ⟨part, hpart, rfl⟩ := List.mem_map.mp hp
      exact hparts part hpart c hc
    have htext : (joinWith (String.mk (tokenChars nm)) parts).toList =
        joinSep (lbrace :: (nm.toList ++ [rbrace])) (parts.map String.toList) := rfl
    have hfound : findPlaceholders (joinWith (String.mk (tokenChars nm)) parts) =
        List.replicate ((parts.map String.toList).length - 1) nm := by
      unfold findPlaceholders
      rw [htext, findallChars_join nm.toList _ hnm hpL]
      rw [List.map_replicate, mk_toList]
    unfold fillText
    rw [hfound]
    rcases parts with _ | ⟨p, ps⟩
    · exact absurd rfl hne
    rcases ps with _ | ⟨q, qs⟩
    · simp only [List.map_cons, List.map_nil, List.length_cons, List.length_nil,
        Nat.zero_add, Nat.sub_self, List.replicate_zero, List.foldl_nil]
      rfl
    · have hlen : ((p :: q :: qs).map String.toList).length - 1 = qs.length + 1 := by
        simp
      rw [hlen, List.replicate_succ, List.foldl_cons]
      have hstep : fillStep ph (joinWith (String.mk (tokenChars nm)) (p :: q :: qs)) nm =
          joinWith v (p :: q :: qs) := by
        unfold fillStep
        rw [hlk]
        show String.mk (replaceAllChars
            (String.mk (lbrace :: nm.toList ++ [rbrace])).toList v.toList
            (joinWith (String.mk (tokenChars nm)) (p :: q :: qs)).toList) =
          joinWith v (p :: q :: qs)
        rw [show (String.mk (lbrace :: nm.toList ++ [rbrace])).toList =
            lbrace :: (nm.toList ++ [rbrace]) from rfl]
        rw [show (joinWith (String.mk (tokenChars nm)) (p :: q :: qs)).toList =
            joinSep (lbrace :: (nm.toList ++ [rbrace]))
              ((p :: q :: qs).map String.toList) from rfl]
        rw [replaceAllChars_join nm.toList v.toList _ hpL]
        rfl
      rw [hstep]
      exact foldl_fillStep_nolb ph _ _
        (joinSep_nolb v.toList _ hv hpL)

/-- C5 witness: substituting `name` in a concrete template replaces the
token, and the empty mapping leaves a concrete text unchanged. -/
theorem fill_placeholders_spec_witness :
    fillText "Hello \x7bname\x7d!" [("name", "World")] = "Hello World!" ∧
    fillText "Hello \x7bname\x7d!" [] = "Hello \x7bname\x7d!" := by
  constructor
  · have h := fill_placeholders_spec.2.2 "name" "World" ["Hello ", "!"]
      [("name", "World")] (by rfl) (by decide) (by decide) (by decide) (by simp)
    have h1 : joinWith (String.mk (tokenChars "name")) ["Hello ", "!"] =
        "Hello \x7bname\x7d!" := by rfl
    have h2 : joinWith "World" ["Hello ", "!"] = "Hello World!" := by rfl
    rw [h1, h2] at h
    exact h
  · exact fill_placeholders_spec.1 "Hello \x7bname\x7d!"

/-! ## Lemmas about the prompt loader and storage providers -/

/-- Substituting into the empty text yields the empty text. -/
theorem fillText_empty (ph : List (String × String)) : fillText "" ph = "" := by
  unfold fillText
  have h : findPlaceholders "" = [] := by
    simp [findPlaceholders, findallChars]
  rw [h]
  rfl

/-- `json.loads` and `PromptSettings(**kwargs)` never raise a bare
`ValueError`: their failures are `JSONDecodeError` or `TypeError`. -/
theorem parseSettings_no_valueError (content : String) (m : String) :
    parseSettings content ≠ Except.error (PyError.valueError m) := by
  intro h
  unfold parseSettings at h
  split at h
  · simp at h
  · unfold PromptSettings.from_kwargs at h
    split at h
    · simp at h
    · split at h <;> simp at h

/-- Inversion of a successful `PromptLoader.__init__`: the stored
schema and tools are exactly the constructor arguments. -/
theorem PromptLoader.init_ok_inv {σ τ : Type} (provider : StorageProvider)
    (ph : List (String × String)) (rs : Option σ) (ts : Option (List τ))
    (l : PromptLoader σ τ)
    (h : PromptLoader.init provider ph rs ts = Except.ok l) :
    l.response_schema = rs ∧ l.tools = ts := by
  simp only [PromptLoader.init] at h
  split at h
  · simp at h
  · split at h
    · simp at h
    · split at h
      · simp at h
      · split at h
        · simp at h
        · split at h <;>
            (rw [Except.ok.injEq] at h; rw [← h]; exact ⟨rfl, rfl⟩)

/-- C3 counterexample: a loader constructed with the tools list
`["GetCurrentTime"]` stores it, but `get_prompt()` returns a `Prompt`
whose `tools` field is `None`, not that list. -/
theorem prompt_loader_tools_counterexample :
    Except.map (fun l => l.tools) c3Loader =
      Except.ok (some ["GetCurrentTime"]) ∧
    Except.map (fun l => (PromptLoader.get_prompt l).tools) c3Loader =
      Except.ok none ∧
    (some ["GetCurrentTime"] : Option (List String)) ≠ none := by
  refine ⟨rfl, rfl, by simp⟩

/-- C3 as amended: `get_prompt()` passes the constructor-supplied
`response_schema` through unchanged, but its `tools` field is always
`None` — the tools list supplied at construction is stored on the
loader and never forwarded, because the source omits the `tools`
argument in its call to `Prompt.from_definition`. -/
theorem prompt_loader_schema_passthrough {σ τ : Type}
    (provider : StorageProvider) (ph : List (String × String))
    (rs : Option σ) (ts : Option (List τ)) (l : PromptLoader σ τ)
    (h : PromptLoader.init provider ph rs ts = Except.ok l) :
    (PromptLoader.get_prompt l).response_schema = rs ∧
    (PromptLoader.get_prompt l).tools = none ∧
    l.tools = ts := by
  obtain ⟨h1, h2⟩ := PromptLoader.init_ok_inv provider ph rs ts l h
  exact ⟨h1, rfl, h2⟩

/-- C3 witness: the amended passthrough facts hold for the concrete
loader `c3Loader`. -/
theorem prompt_loader_schema_passthrough_witness :
    (PromptLoader.get_prompt
        (⟨"You are a helpful assistant.", "Hello", ⟨"openai", "gpt-4"⟩,
          none, some ["GetCurrentTime"]⟩ : PromptLoader Unit String)).tools =
      none ∧
    (⟨"You are a helpful assistant.", "Hello", ⟨"openai", "gpt-4"⟩, none,
        some ["GetCurrentTime"]⟩ : PromptLoader Unit String).tools =
      some ["GetCurrentTime"] :=
  ⟨(prompt_loader_schema_passthrough demoMemProvider.toStorageProvider []
      none (some ["GetCurrentTime"]) _ rfl).2.1,
    (prompt_loader_schema_passthrough demoMemProvider.toStorageProvider []
      none (some ["GetCurrentTime"]) _ rfl).2.2⟩

/-- C4: over any provider whose listing is non-empty, construction
fails with `ValueError("settings.json not found in prompt directory")`
when `settings.json` cannot be downloaded; fails with the distinct
`ValueError("system.md not found in prompt directory")` when settings
are present and parse but `system.md` cannot be downloaded; and when
only `user.md` is absent, construction succeeds with the loaded
`user_prompt` equal to the empty string. -/
theorem prompt_loader_artifact_errors (σ τ : Type) (p : StorageProvider)
    (ph : List (String × String)) (rs : Option σ) (ts : Option (List τ))
    (hne : p.list_files ≠ []) :
    (p.download_file "settings.json" = none →
      PromptLoader.init p ph rs ts =
        Except.error
          (PyError.valueError "settings.json not found in prompt directory") ∧
      (PyError.valueError
          "settings.json not found in prompt directory").isValueErrorClass =
        true) ∧
    (∀ sc st, p.download_file "settings.json" = some sc →
      parseSettings sc = Except.ok st →
      p.download_file "system.md" = none →
      PromptLoader.init p ph rs ts =
        Except.error
          (PyError.valueError "system.md not found in prompt directory") ∧
      (PyError.valueError
          "system.md not found in prompt directory").isValueErrorClass =
        true) ∧
    (PyError.valueError "settings.json not found in prompt directory" ≠
      PyError.valueError "system.md not found in prompt directory") ∧
    (∀ sc st sys, p.download_file "settings.json" = some sc →
      parseSettings sc = Except.ok st →
      p.download_file "system.md" = some sys →
      p.download_file "user.md" = none →
      ∃ l : PromptLoader σ τ,
        PromptLoader.init p ph rs ts = Except.ok l ∧ l.user_prompt = "") := by
  have hlist : p.list_files.isEmpty = false := by
    cases h2 : p.list_files with
    | nil => exact absurd h2 hne
    | cons a l => rfl
  refine ⟨?_, ?_, by simp, ?_⟩
  · intro hset
    refine ⟨?_, rfl⟩
    simp only [PromptLoader.init, hlist, Bool.false_eq_true, if_false, hset]
  · intro sc st hset hparse hsys
    refine ⟨?_, rfl⟩
    simp only [PromptLoader.init, hlist, Bool.false_eq_true, if_false, hset,
      hparse, hsys]
  · intro sc st sys hset hparse hsys husr
    by_cases hph : ph.isEmpty
    · refine ⟨⟨sys, "", st, rs, ts⟩, ?_, rfl⟩
      simp only [PromptLoader.init, hlist, Bool.false_eq_true, if_false, hset,
        hparse, hsys, husr, hph, if_true]
    · refine ⟨⟨fillText sys ph, fillText "" ph, st, rs, ts⟩, ?_,
        fillText_empty ph⟩
      simp only [PromptLoader.init, hlist, Bool.false_eq_true, if_false, hset,
        hparse, hsys, husr, hph, if_false]

/-- C4 witness: the three cases at concrete providers. -/
theorem prompt_loader_artifact_errors_witness :
    PromptLoader.init noSettingsProvider [] (none : Option Unit)
        (none : Option (List Unit)) =
      Except.error
        (PyError.valueError "settings.json not found in prompt directory") ∧
    PromptLoader.init noSystemProvider [] (none : Option Unit)
        (none : Option (List Unit)) =
      Except.error
        (PyError.valueError "system.md not found in prompt directory") ∧
    (∃ l : PromptLoader Unit Unit,
      PromptLoader.init noUserProvider [] none none = Except.ok l ∧
        l.user_prompt = "") :=
  ⟨((prompt_loader_artifact_errors Unit Unit noSettingsProvider [] none none
      (by simp [noSettingsProvider])).1 rfl).1,
    ((prompt_loader_artifact_errors Unit Unit noSystemProvider [] none none
      (by simp [noSystemProvider])).2.1 (dumpsSettings ⟨"openai", "gpt-4"⟩)
      ⟨"openai", "gpt-4"⟩ rfl rfl rfl).1,
    (prompt_loader_artifact_errors Unit Unit noUserProvider [] none none
      (by simp [noUserProvider])).2.2.2 (dumpsSettings ⟨"openai", "gpt-4"⟩)
      ⟨"openai", "gpt-4"⟩ "Sys" rfl rfl rfl rfl⟩

/-- C6: round-trip through a memory-backed loader.  For every system
text `S` and user text `U`, a loader over
`MemoryProvider(S, {provider: "openai", model: "gpt-4"}, U)` with no
placeholder mapping constructs successfully and yields
`get_prompt().system_prompt == S`, `get_prompt().user_prompt == U`,
and `get_prompt().settings.provider == "openai"`. -/
theorem memory_loader_round_trip (S U : String) (σ τ : Type)
    (rs : Option σ) (ts : Option (List τ)) :
    ∃ l : PromptLoader σ τ,
      PromptLoader.init
          (MemoryProvider.toStorageProvider ⟨S, ⟨"openai", "gpt-4"⟩, U⟩) []
          rs ts =
        Except.ok l ∧
      (PromptLoader.get_prompt l).system_prompt = S ∧
      (PromptLoader.get_prompt l).user_prompt = U ∧
      (PromptLoader.get_prompt l).settings.provider = "openai" ∧
      (PromptLoader.get_prompt l).settings.model = "gpt-4" := by
  rcases eq_or_ne U "" with hU | hU
  · subst hU
    exact ⟨⟨S, "", ⟨"openai", "gpt-4"⟩, rs, ts⟩, rfl, rfl, rfl, rfl, rfl⟩
  · refine ⟨⟨S, U, ⟨"openai", "gpt-4"⟩, rs, ts⟩, ?_, rfl, rfl, rfl, rfl⟩
    have hparse : parseSettings (dumpsSettings ⟨"openai", "gpt-4"⟩) =
        Except.ok ⟨"openai", "gpt-4"⟩ := rfl
    have hlist :
        (MemoryProvider.toStorageProvider
            ⟨S, ⟨"openai", "gpt-4"⟩, U⟩).list_files.isEmpty = false := by
      show (MemoryProvider.list_files ⟨S, ⟨"openai", "gpt-4"⟩, U⟩).isEmpty =
        false
      unfold MemoryProvider.list_files
      rw [if_pos hU]
      rfl
    have husr :
        (MemoryProvider.toStorageProvider
            ⟨S, ⟨"openai", "gpt-4"⟩, U⟩).download_file "user.md" = some U := by
      show MemoryProvider.download_file ⟨S, ⟨"openai", "gpt-4"⟩, U⟩ "user.md" =
        some U
      unfold MemoryProvider.download_file
      rw [if_neg (by decide), if_neg (by decide), if_pos rfl, if_pos hU]
    simp only [PromptLoader.init, hlist, Bool.false_eq_true, if_false,
      show (MemoryProvider.toStorageProvider
          ⟨S, ⟨"openai", "gpt-4"⟩, U⟩).download_file "settings.json" =
        some (dumpsSettings ⟨"openai", "gpt-4"⟩) from rfl,
      hparse,
      show (MemoryProvider.toStorageProvider
          ⟨S, ⟨"openai", "gpt-4"⟩, U⟩).download_file "system.md" =
        some S from rfl,
      husr, List.isEmpty_nil, if_true]

/-- C10: a `MemoryProvider` listing is never empty — it holds records
for `settings.json` and `system.md` unconditionally and a record for
`user.md` exactly when the user text is non-empty — so a loader
constructed over it never fails the initial empty-listing check
(`ValueError("Prompt does not exist in storage")`). -/
theorem memory_provider_listing_invariant (S : String) (st : PromptSettings)
    (U : String) (σ τ : Type) (ph : List (String × String)) (rs : Option σ)
    (ts : Option (List τ)) :
    MemoryProvider.list_files ⟨S, st, U⟩ ≠ [] ∧
    (∃ r ∈ MemoryProvider.list_files ⟨S, st, U⟩, r.name = "settings.json") ∧
    (∃ r ∈ MemoryProvider.list_files ⟨S, st, U⟩, r.name = "system.md") ∧
    ((∃ r ∈ MemoryProvider.list_files ⟨S, st, U⟩, r.name = "user.md") ↔
      U ≠ "") ∧
    PromptLoader.init (MemoryProvider.toStorageProvider ⟨S, st, U⟩) ph rs ts ≠
      Except.error (PyError.valueError "Prompt does not exist in storage") := by
  have hlist : (MemoryProvider.list_files ⟨S, st, U⟩).isEmpty = false := by
    unfold MemoryProvider.list_files
    rcases eq_or_ne U "" with hU | hU
    · rw [if_neg (by simp [hU])]; rfl
    · rw [if_pos hU]; rfl
  refine ⟨?_, ?_, ?_, ?_, ?_⟩
  · intro h
    rw [h] at hlist
    simp at hlist
  · refine ⟨⟨"settings.json", "settings.json", (dumpsSettings st).length, 0, 0,
      "application/json"⟩, ?_, rfl⟩
    unfold MemoryProvider.list_files
    rcases eq_or_ne U "" with hU | hU
    · rw [if_neg (by simp [hU])]
      simp
    · rw [if_pos hU]
      simp
  · refine ⟨⟨"system.md", "system.md", S.utf8ByteSize, 0, 0,
      "text/markdown"⟩, ?_, rfl⟩
    unfold MemoryProvider.list_files
    rcases eq_or_ne U "" with hU | hU
    · rw [if_neg (by simp [hU])]
      simp
    · rw [if_pos hU]
      simp
  · constructor
    · rintro ⟨r, hr, hname⟩ hU
      revert hr
      unfold MemoryProvider.list_files
      rw [if_neg (by simp [hU])]
      intro hr
      simp only [List.mem_cons, List.mem_singleton] at hr
      rcases hr with rfl | rfl | h
      · simp at hname
      · simp at hname
      · exact absurd h (List.not_mem_nil r)
    · intro hU
      refine ⟨⟨"user.md", "user.md", U.utf8ByteSize, 0, 0, "text/markdown"⟩,
        ?_, rfl⟩
      unfold MemoryProvider.list_files
      rw [if_pos hU]
      simp
  · intro heq
    have htos : (MemoryProvider.toStorageProvider ⟨S, st, U⟩).list_files =
        MemoryProvider.list_files ⟨S, st, U⟩ := rfl
    simp only [PromptLoader.init, htos, hlist, Bool.false_eq_true, if_false,
      show (MemoryProvider.toStorageProvider
          ⟨S, st, U⟩).download_file "settings.json" =
        some (dumpsSettings st) from rfl] at heq
    rcases hp : parseSettings (dumpsSettings st) with e | st2
    · simp only [hp, Except.error.injEq] at heq
      exact parseSettings_no_valueError (dumpsSettings st) _ (by rw [hp, heq])
    · simp only [hp,
        show (MemoryProvider.toStorageProvider
            ⟨S, st, U⟩).download_file "system.md" = some S from rfl] at heq
      split at heq <;> simp at heq

/-- C10 witness: the facts at a concrete memory provider. -/
theorem memory_provider_listing_invariant_witness :
    MemoryProvider.list_files demoMemProvider ≠ [] ∧
    PromptLoader.init demoMemProvider.toStorageProvider []
        (none : Option Unit) (none : Option (List Unit)) ≠
      Except.error (PyError.valueError "Prompt does not exist in storage") :=
  ⟨(memory_provider_listing_invariant "You are a helpful assistant."
      ⟨"openai", "gpt-4"⟩ "Hello" Unit Unit [] none none).1,
    (memory_provider_listing_invariant "You are a helpful assistant."
      ⟨"openai", "gpt-4"⟩ "Hello" Unit Unit [] none none).2.2.2.2⟩

/-! ## Lemmas about the filesystem provider -/

/-- C9 counterexample: `FileSystemProvider.download_file` has no
blank-name guard, so a whitespace-only name is treated as an ordinary
file name — over a directory that holds a file literally named `" "`,
downloading `" "` returns its bytes instead of `None`. -/
theorem filesystem_download_whitespace_counterexample :
    FileSystemProvider.download_file wsDir " " = some "secret" ∧
    (" " : String) ≠ "" ∧
    (∀ c ∈ (" " : String).toList, c = ' ') := by
  refine ⟨rfl, by decide, by decide⟩

/-- C9 as amended: `list_files` returns the empty sequence rather than
propagating when the underlying listing fails; `download_file` returns
`None` when the name is empty (the joined path is the directory itself
and the read raises), when no directory entry has the name, or when
the file's read fails; and otherwise it returns the exact stored
bytes.  (A whitespace-only name is an ordinary file name: there is no
blank-name guard in this provider.) -/
theorem filesystem_provider_io_amended (d : FileSystemProvider)
    (name : String) :
    (d.listFails = true → d.list_files = []) ∧
    (name = "" → d.download_file name = none) ∧
    ((∀ e ∈ d.entries, FsEntry.name e ≠ name) →
      d.download_file name = none) ∧
    (∀ content sz ct mt,
      d.entries.find? (fun e => FsEntry.name e == name) =
        some (FsEntry.file name content sz ct mt true) →
      d.download_file name = none) ∧
    (∀ content sz ct mt, name ≠ "" →
      d.entries.find? (fun e => FsEntry.name e == name) =
        some (FsEntry.file name content sz ct mt false) →
      d.download_file name = some content) := by
  refine ⟨?_, ?_, ?_, ?_, ?_⟩
  · intro h
    unfold FileSystemProvider.list_files
    rw [if_pos h]
  · intro h
    subst h
    unfold FileSystemProvider.download_file
    rw [if_neg (by simp [FileSystemProvider.path_exists])]
    rw [if_pos rfl]
  · intro h
    rcases eq_or_ne name "" with hn | hn
    · subst hn
      unfold FileSystemProvider.download_file
      rw [if_neg (by simp [FileSystemProvider.path_exists])]
      rw [if_pos rfl]
    · unfold FileSystemProvider.download_file
      have hpe : d.path_exists name = false := by
        unfold FileSystemProvider.path_exists
        rw [Bool.or_eq_false_iff]
        refine ⟨by simpa using hn, ?_⟩
        rw [List.any_eq_false]
        intro e he
        simpa using h e he
      rw [hpe]
      rfl
  · intro content sz ct mt hf
    rcases eq_or_ne name "" with hn | hn
    · subst hn
      unfold FileSystemProvider.download_file
      rw [if_neg (by simp [FileSystemProvider.path_exists])]
      rw [if_pos rfl]
    · have hpe : d.path_exists name = true := by
        unfold FileSystemProvider.path_exists
        rw [Bool.or_eq_true]
        right
        rw [List.any_eq_true]
        exact ⟨FsEntry.file name content sz ct mt true,
          List.mem_of_find?_eq_some hf, by simp [FsEntry.name]⟩
      unfold FileSystemProvider.download_file
      rw [hpe]
      simp only [Bool.not_true, Bool.false_eq_true, if_false]
      rw [if_neg hn]
      rw [show (d.entries.find? (fun e => e.name == name)) =
        some (FsEntry.file name content sz ct mt true) from hf]
      rfl
  · intro content sz ct mt hn hf
    have hpe : d.path_exists name = true := by
      unfold FileSystemProvider.path_exists
      rw [Bool.or_eq_true]
      right
      rw [List.any_eq_true]
      exact ⟨FsEntry.file name content sz ct mt false,
        List.mem_of_find?_eq_some hf, by simp [FsEntry.name]⟩
    unfold FileSystemProvider.download_file
    rw [hpe]
    simp only [Bool.not_true, Bool.false_eq_true, if_false]
    rw [if_neg hn]
    rw [show (d.entries.find? (fun e => e.name == name)) =
      some (FsEntry.file name content sz ct mt false) from hf]
    rfl

/-- C9 witness: the amended behaviors at concrete directories. -/
theorem filesystem_provider_io_amended_witness :
    FileSystemProvider.list_files failDir = [] ∧
    FileSystemProvider.download_file okDir "" = none ∧
    FileSystemProvider.download_file okDir "missing.md" = none ∧
    FileSystemProvider.download_file failDir "a.md" = none ∧
    FileSystemProvider.download_file okDir "system.md" =
      some "You are helpful." :=
  ⟨(filesystem_provider_io_amended failDir "a.md").1 rfl,
    (filesystem_provider_io_amended okDir "").2.1 rfl,
    (filesystem_provider_io_amended okDir "missing.md").2.2.1
      (by intro e he; fin_cases he <;> decide),
    (filesystem_provider_io_amended failDir "a.md").2.2.2.1 "x" 1 0 0 rfl,
    (filesystem_provider_io_amended okDir "system.md").2.2.2.2
      "You are helpful." 16 0 0 (by decide) rfl⟩

/-! ## Lemmas about the model orchestrator -/

/-- A successful decode preserves the batch length. -/
theorem decode_tool_requests_length (raws : List RawToolCall)
    (reqs : List ToolCallRequest)
    (h : decode_tool_requests raws = Except.ok reqs) :
    reqs.length = raws.length := by
  induction raws generalizing reqs with
  | nil =>
    unfold decode_tool_requests at h
    rw [Except.ok.injEq] at h
    rw [← h]
    rfl
  | cons tc rest ih =>
    unfold decode_tool_requests at h
    split at h
    · simp at h
    · split at h
      · simp at h
      · rename_i reqs2 hrest
        rw [Except.ok.injEq] at h
        rw [← h]
        simp [ih reqs2 hrest]

/-- C7: for a prompt whose `tools` field is `None`,
`get_text_completion` performs exactly one transport call, with the
two base messages built from the prompt's system and user text, and
returns that call's text content verbatim — no tool dispatch, no
second call. -/
theorem get_text_completion_no_tools {σ τ : Type}
    (transport : ChatCall τ → AssistantMessage) (reg : ToolRegistry)
    (prompt : Prompt σ τ) (h : prompt.tools = none) :
    ModelClient.get_text_completion transport reg prompt =
      Except.ok
        ((transport (ChatCall.mk prompt.settings.model
            (ModelClient.build_base_messages prompt) none)).content,
          [ChatCall.mk prompt.settings.model
            (ModelClient.build_base_messages prompt) none]) ∧
    ModelClient.build_base_messages prompt =
      [ChatMessage.role_content "system" prompt.system_prompt,
        ChatMessage.role_content "user" prompt.user_prompt] := by
  constructor
  · unfold ModelClient.get_text_completion
    rw [h]
  · rfl

/-- C7 witness: over the scripted transport, the no-tools prompt gets
one call with the two base messages and its content back verbatim. -/
theorem get_text_completion_no_tools_witness :
    ModelClient.get_text_completion demoTransport demoRegistryTwo
        demoPromptNoTools =
      Except.ok ("plain answer",
        [ChatCall.mk "gpt-4"
          [ChatMessage.role_content "system" "Sys",
            ChatMessage.role_content "user" "Usr"] none]) :=
  (get_text_completion_no_tools demoTransport demoRegistryTwo
    demoPromptNoTools rfl).1.trans rfl

/-- C8: for a prompt declaring tools, when the first transport call
returns `N` tool calls whose argument payloads decode, the dispatch
loop produces `N` responses in order, and the second transport call
receives exactly the 2 base messages, then the raw assistant message
of the first call, then one tool-role message per response carrying
that response's `tool_call_id` and the string form of its result — a
message list of length `2 + 1 + N`. -/
theorem get_text_completion_with_tools {σ τ : Type}
    (transport : ChatCall τ → AssistantMessage) (reg : ToolRegistry)
    (prompt : Prompt σ τ) (ts : List τ) (raws : List RawToolCall)
    (reqs : List ToolCallRequest)
    (hts : prompt.tools = some ts)
    (hraw : (transport (ChatCall.mk prompt.settings.model
        (ModelClient.build_base_messages prompt) (some ts))).tool_calls =
      some raws)
    (hdec : decode_tool_requests raws = Except.ok reqs) :
    ModelClient.get_text_completion transport reg prompt =
      Except.ok
        ((transport (ChatCall.mk prompt.settings.model
            (ModelClient.build_base_messages prompt ++
              [ChatMessage.assistant_raw
                (transport (ChatCall.mk prompt.settings.model
                  (ModelClient.build_base_messages prompt) (some ts)))] ++
              (ToolRunner.run_tools reg reqs).1.map (fun r =>
                ChatMessage.tool_result r.tool_call_id r.result))
            (some ts))).content,
          [ChatCall.mk prompt.settings.model
            (ModelClient.build_base_messages prompt) (some ts),
            ChatCall.mk prompt.settings.model
            (ModelClient.build_base_messages prompt ++
              [ChatMessage.assistant_raw
                (transport (ChatCall.mk prompt.settings.model
                  (ModelClient.build_base_messages prompt) (some ts)))] ++
              (ToolRunner.run_tools reg reqs).1.map (fun r =>
                ChatMessage.tool_result r.tool_call_id r.result))
            (some ts)]) ∧
    (ToolRunner.run_tools reg reqs).1.length = raws.length ∧
    (ModelClient.build_base_messages prompt ++
      [ChatMessage.assistant_raw
        (transport (ChatCall.mk prompt.settings.model
          (ModelClient.build_base_messages prompt) (some ts)))] ++
      (ToolRunner.run_tools reg reqs).1.map (fun r =>
        ChatMessage.tool_result r.tool_call_id r.result)).length =
      2 + 1 + raws.length := by
  have hlen : (ToolRunner.run_tools reg reqs).1.length = raws.length := by
    rw [ToolRunner.run_tools_fst_length]
    exact decode_tool_requests_length raws reqs hdec
  refine ⟨?_, hlen, ?_⟩
  · simp only [ModelClient.get_text_completion, hts, hraw, hdec]
  · simp only [List.length_append, List.length_map, List.length_cons,
      List.length_nil, ModelClient.build_base_messages, hlen]

/-- C8 witness: the spec's scenario B.  Two tool calls
(`GetCurrentTime` and `IsWeekend`) come back from the first call; the
final content is returned after a second call whose message list has
length `base(2) + 1 + 2 = 5` (the first call's had 2). -/
theorem get_text_completion_with_tools_witness :
    Except.map (fun pr =>
        (pr.1, pr.2.length, pr.2.map (fun c => c.messages.length)))
      (ModelClient.get_text_completion demoTransport demoRegistryTwo
        demoPromptTools) =
      Except.ok ("final answer", 2, [2, 5]) := by
  have h := get_text_completion_with_tools demoTransport demoRegistryTwo
    demoPromptTools ["GetCurrentTime", "IsWeekend"]
    [⟨"call_1", "GetCurrentTime", "\x7b\x7d"⟩,
      ⟨"call_2", "IsWeekend", "\x7b\x7d"⟩]
    [⟨"call_1", "GetCurrentTime", []⟩, ⟨"call_2", "IsWeekend", []⟩]
    rfl rfl rfl
  rw [h.1]
  rfl

end SmartPrompt
